import Mathlib

/-
Verification development for the pog-token-api repository.

The repository is an Express HTTP service that mints a reward token (POG)
after verifying a USDC payment on the Base chain.  The relevant sources are:
  - src/server.js            : the payment-enforced variant (tx-hash proofs,
                               verifyUSDCPayment, hash normalization, and the
                               processedPayments map keyed by normalized hash)
  - src/unnamed/part_000     : the x402 authorization variant (base64 payload
                               with payload.authorization, paymentId equal to
                               the payload signature, permit + transferFrom
                               relay before minting)

JavaScript strings are embedded as Lean String values, with every operation
defined over the underlying character list so that all definitions are
executable and kernel-reducible.  JavaScript BigInt amounts are embedded as
Nat, and parseInt results as Option Int (none standing for NaN).  The
blockchain node (ethers provider) is embedded as an explicit Chain value:
an association list of transaction receipts plus the set of hashes for which
transaction details are available.  The POG ledger transfer is embedded as a
function from the recipient address to Option of the mint transaction hash
(none standing for a failed or reverted mint transaction).
-/

/-- Lowercasing as performed by JavaScript toLowerCase on the characters
used here (hex digits and latin letters). -/
def sLower (s : String) : String := ⟨s.data.map Char.toLower⟩

/-- JavaScript slice from a character index to the end of the string. -/
def sDrop (s : String) (n : Nat) : String := ⟨s.data.drop n⟩

/-- Truthiness of an optional JavaScript string: undefined and the empty
string are falsy, every other string is truthy. -/
def jsTruthy : Option String → Bool
  | none => false
  | some s => decide (s ≠ "")

/-- Numeric value of a list of decimal digit characters. -/
def digitsToNat (ds : List Char) : Nat :=
  ds.foldl (fun n c => 10 * n + (c.toNat - 48)) 0

/-- JavaScript parseInt on a decimal string: leading spaces are skipped, an
optional sign is consumed, then the longest leading run of digits is read;
none models NaN (no digits found). -/
def jsParseInt (s : String) : Option Int :=
  match s.data.dropWhile (fun c => c == ' ') with
  | '-' :: rest =>
    match rest.takeWhile Char.isDigit with
    | [] => none
    | ds => some (-(digitsToNat ds : Int))
  | '+' :: rest =>
    match rest.takeWhile Char.isDigit with
    | [] => none
    | ds => some (digitsToNat ds)
  | t =>
    match t.takeWhile Char.isDigit with
    | [] => none
    | ds => some (digitsToNat ds)

/-- Removal of a leading 0x, as in the server.js cleaning block:
if (txHash.startsWith(0x)) txHash = txHash.slice(2). -/
def stripHexMarker : List Char → List Char
  | '0' :: 'x' :: rest => rest
  | s => s

/-- Character-level transaction-hash cleaning from src/server.js lines
215-233: strip a leading 0x, truncate to 64 characters when longer, and
re-prepend 0x. -/
def normChars (s : List Char) : List Char :=
  '0' :: 'x' ::
    (if 64 < (stripHexMarker s).length then (stripHexMarker s).take 64
     else stripHexMarker s)

/-- Transaction-hash normalization from src/server.js lines 215-233. -/
def normalizeTxHash (s : String) : String := ⟨normChars s.data⟩

/-- The guard if (txHash) around the cleaning block: a truthy value is
normalized, a falsy one is left as is. -/
def normalizeIfTruthy (raw : String) : String :=
  if raw ≠ "" then normalizeTxHash raw else raw

/-- Base Mainnet USDC contract address, hardcoded in src/server.js line 15. -/
def USDC_CONTRACT_ADDRESS : String := "0x833589fCD6eDb6E08f4c7C32D4f71b54bdA02913"

/-- keccak256 of Transfer(address,address,uint256), the value of
ethers.id at src/server.js line 118. -/
def transferEventTopic : String :=
  "0xddf252ad1be2c89b69c2b068fc378daa952ba7f163c4a11628f55a4df523b3ef"

/-- REQUIRED_USDC_AMOUNT = ethers.parseUnits(1, 6) from src/server.js
line 35. -/
def REQUIRED_USDC_AMOUNT : Nat := 1000000

/-- One decoded receipt log: emitting contract address, indexed topics
(32-byte hex strings), and the numeric value of the data word. -/
structure Log where
  address : String
  topics : List String
  data : Nat
deriving DecidableEq

/-- A transaction receipt: status (1 for success) and logs in emission
order. -/
structure Receipt where
  status : Nat
  logs : List Log
deriving DecidableEq

/-- The chain as seen through the ethers provider: receipts by transaction
hash, and the set of hashes for which getTransaction returns details. -/
structure Chain where
  receipts : List (String × Receipt)
  txs : List String
deriving DecidableEq

/-- Environment-derived configuration: the PAYMENT_ADDRESS payee. -/
structure Config where
  paymentAddress : String
deriving DecidableEq

/-- Source address of a transfer log: 0x plus topics[1] with the 26-char
padding prefix removed (src/server.js line 122). -/
def logSrc (l : Log) : String := "0x" ++ sDrop (l.topics.getD 1 "") 26

/-- Destination address of a transfer log: 0x plus topics[2] with the
26-char padding prefix removed (src/server.js line 123). -/
def logDst (l : Log) : String := "0x" ++ sDrop (l.topics.getD 2 "") 26

/-- The per-log test from the scan loop of verifyUSDCPayment
(src/server.js lines 113-141): the log is emitted by the USDC contract,
its first topic is the Transfer event topic, it carries enough topics for
the from and to fields to decode (a shorter log throws inside the try and
is skipped), its destination is the configured payee, and its amount is at
least the required amount. -/
def qualifiesLog (cfg : Config) (l : Log) : Bool :=
  sLower l.address == sLower USDC_CONTRACT_ADDRESS &&
  l.topics.getD 0 "" == transferEventTopic &&
  decide (3 ≤ l.topics.length) &&
  sLower (logDst l) == sLower cfg.paymentAddress &&
  decide (REQUIRED_USDC_AMOUNT ≤ l.data)

/-- Outcome of verifyUSDCPayment: verified with payer and amount, or a
failure with the human-readable message the code returns. -/
inductive VerifyResult
  | ok (payer : String) (amount : Nat)
  | err (msg : String)
deriving DecidableEq

def txNotFoundMsg : String :=
  "Transaction not found. Please verify the hash and ensure it is confirmed."

def txFailedMsg : String := "Transaction failed"

def txDetailsMsg : String := "Transaction details not found"

def noTransferMsg : String := "No USDC transfer to payment address found"

def payerMismatchMsg : String := "Payer address does not match transaction"

/-- verifyUSDCPayment from src/server.js lines 75-171: fetch the receipt
(failing when absent), check the status, fetch the transaction details
(failing when absent), scan the logs in emission order for the first
qualifying USDC transfer to the payee, then compare a truthy caller-supplied
payer against the transfer source; on success the payer is the transfer
source address and the amount the transferred amount. -/
def verifyUSDCPayment (chain : Chain) (cfg : Config) (txHash : String)
    (payer : Option String) : VerifyResult :=
  match chain.receipts.lookup txHash with
  | none => .err txNotFoundMsg
  | some receipt =>
    if receipt.status ≠ 1 then .err txFailedMsg
    else if chain.txs.contains txHash = false then .err txDetailsMsg
    else
      match receipt.logs.find? (qualifiesLog cfg) with
      | none => .err noTransferMsg
      | some l =>
        if jsTruthy payer = true ∧ sLower (payer.getD "") ≠ sLower (logSrc l) then
          .err payerMismatchMsg
        else .ok (logSrc l) l.data

/-- The record stored in the processedPayments map on a successful mint
(src/server.js lines 281-287). -/
structure SettlementRecord where
  payer : String
  mintTxHash : String
  timestamp : String
  amount : String
deriving DecidableEq

/-- Responses of the /mint endpoint in src/server.js: the 402 challenge,
the 400 already-processed rejection, the 402 verification failure, the 500
internal error from the catch block, and the 200 success payload. -/
inductive MintResponse
  | challenge
  | alreadyProcessed (txHash : String)
  | verificationFailed (msg : String)
  | serverError (msg : String)
  | success (paymentTx mintTx recipient : String)
deriving DecidableEq

/-- Whether a response is the 200 success payload. -/
def MintResponse.isSuccess : MintResponse → Bool
  | .success _ _ _ => true
  | _ => false

def mintFailMsg : String := "Mint transaction failed"

/-- The body of the /mint try block after hash cleaning (src/server.js
lines 235-309): duplicate check against processedPayments, on-chain
verification, POG transfer via the ledger, then commit of the settlement
record.  A ledger result of none models the mint transaction failing,
which the code turns into the 500 catch response without committing. -/
def mintWithHash (cfg : Config) (chain : Chain) (ledger : String → Option String)
    (now : String) (st : List (String × SettlementRecord)) (txHash : String)
    (payerQuery : Option String) :
    MintResponse × List (String × SettlementRecord) :=
  match st.lookup txHash with
  | some _ => (.alreadyProcessed txHash, st)
  | none =>
    match verifyUSDCPayment chain cfg txHash payerQuery with
    | .err msg => (.verificationFailed msg, st)
    | .ok payer _amt =>
      match ledger payer with
      | none => (.serverError mintFailMsg, st)
      | some mintTx =>
        (.success txHash mintTx payer,
         (txHash, ⟨payer, mintTx, now, "10000 POG"⟩) :: st)

/-- The /mint handler of src/server.js lines 174-310: with both payment
headers falsy the 402 challenge is returned; otherwise the first truthy
header value is cleaned into a transaction hash and processed. -/
def handleMint (cfg : Config) (chain : Chain) (ledger : String → Option String)
    (now : String) (st : List (String × SettlementRecord))
    (paymentTxHeader paymentHeader : Option String) (payerQuery : Option String) :
    MintResponse × List (String × SettlementRecord) :=
  if jsTruthy paymentTxHeader = false ∧ jsTruthy paymentHeader = false then
    (.challenge, st)
  else
    mintWithHash cfg chain ledger now st
      (normalizeIfTruthy
        (if jsTruthy paymentTxHeader then paymentTxHeader.getD ""
         else paymentHeader.getD ""))
      payerQuery

/-
Interleaving model of concurrent /mint requests.  Node.js runs the handler
body atomically between await points.  In src/server.js the
processedPayments.has check (line 237) and the processedPayments.set commit
(line 282) are separated by the awaited verification and mint calls, so two
requests may interleave between them.  A request is modelled as progressing
through two atomic segments: the first runs the duplicate check and the
verification, the second runs the mint and the commit.  This is coarser
than the real await boundaries (which also yield between verification and
mint), so every schedule of this model corresponds to a real execution.
-/

/-- Progress of one in-flight /mint request in the interleaving model. -/
inductive ReqPhase
  | started (txHash : String) (payerQuery : Option String)
  | readyToMint (txHash payer : String)
  | finished (resp : MintResponse)
deriving DecidableEq

/-- Shared state of the concurrent server: the processedPayments map, the
number of POG ledger transfers performed so far, and the per-request
phases. -/
structure ConcState where
  processed : List (String × SettlementRecord)
  mintCount : Nat
  reqs : List ReqPhase
deriving DecidableEq

/-- One atomic segment of request i: from started, run the duplicate check
and the verification; from readyToMint, run the POG transfer and, on
success, the commit into processedPayments. -/
def stepReq (cfg : Config) (chain : Chain) (ledger : String → Option String)
    (now : String) (s : ConcState) (i : Nat) : ConcState :=
  match s.reqs.get? i with
  | none => s
  | some ph =>
    match ph with
    | .started h pq =>
      match s.processed.lookup h with
      | some _ => { s with reqs := s.reqs.set i (.finished (.alreadyProcessed h)) }
      | none =>
        match verifyUSDCPayment chain cfg h pq with
        | .err m => { s with reqs := s.reqs.set i (.finished (.verificationFailed m)) }
        | .ok payer _ => { s with reqs := s.reqs.set i (.readyToMint h payer) }
    | .readyToMint h payer =>
      match ledger payer with
      | none => { s with reqs := s.reqs.set i (.finished (.serverError mintFailMsg)) }
      | some mintTx =>
        { processed := (h, ⟨payer, mintTx, now, "10000 POG"⟩) :: s.processed,
          mintCount := s.mintCount + 1,
          reqs := s.reqs.set i (.finished (.success h mintTx payer)) }
    | .finished _ => s

/-- Run a schedule: each entry names the request that executes its next
atomic segment. -/
def runSched (cfg : Config) (chain : Chain) (ledger : String → Option String)
    (now : String) (s0 : ConcState) (sched : List Nat) : ConcState :=
  sched.foldl (stepReq cfg chain ledger now) s0

/-
Model of the x402 authorization flow of src/unnamed/part_000 (the /mint
handler, lines 128-262).  The base64 decoding and JSON parsing of the
X-PAYMENT header are upstream of the part modelled here; the handler below
receives the decoded payload.  The relay environment records which of the
awaited on-chain steps succeed: parsing the signature with
ethers.Signature.from, the permit transaction, the transferFrom
transaction, and the POG mint transfer.
-/

/-- The payload.authorization object of an x402 payment. -/
structure Auth where
  fromAddr : String
  toAddr : String
  value : String
  validBefore : String
  nonce : String
deriving DecidableEq

/-- The decoded payload of an x402 payment header: an optional
authorization object plus the signature. -/
structure PaymentPayload where
  authorization : Option Auth
  signature : String
deriving DecidableEq

/-- On-chain side effects the authorization handler can attempt. -/
inductive RelayEffect
  | permit
  | transferFrom
  | mintPog
deriving DecidableEq

/-- Which awaited steps of the authorization flow succeed. -/
structure RelayEnv where
  sigParseOk : Bool
  permitOk : Bool
  transferOk : Bool
  mintOk : Bool
deriving DecidableEq

/-- Responses of the part_000 /mint handler on the authorization path. -/
inductive AuthResponse
  | missingAuthorization
  | alreadyProcessed
  | insufficientAmount
  | invalidRecipient
  | authorizationFailed
  | serverError
  | success (recipient : String)
deriving DecidableEq

/-- Whether an authorization response is the success payload. -/
def AuthResponse.isOk : AuthResponse → Bool
  | .success _ => true
  | _ => false

/-- The amount check of part_000 lines 166-173: parseInt(auth.value) <
1000000; a NaN comparison is false in JavaScript, so none passes the
check. -/
def authValueInsufficient (a : Auth) : Bool :=
  match jsParseInt a.value with
  | none => false
  | some v => decide (v < 1000000)

/-- The idempotency key of the authorization flow, part_000 line 155:
const paymentId = signature. -/
def paymentIdOfPayload (p : PaymentPayload) : String := p.signature

/-- The part_000 /mint handler from the decoded payload on (lines
144-252): missing authorization, duplicate paymentId, insufficient amount
and wrong recipient are each rejected in that order; then the signature is
split, the permit and transferFrom relay transactions are sent, the POG
mint runs, and only then is the paymentId committed to processedPayments.
The returned effect list records which relay steps were attempted. -/
def handleX402Mint (payee : String) (env : RelayEnv) (st : List String)
    (p : PaymentPayload) : AuthResponse × List String × List RelayEffect :=
  match p.authorization with
  | none => (.missingAuthorization, st, [])
  | some auth =>
    if st.contains p.signature then (.alreadyProcessed, st, [])
    else if authValueInsufficient auth then (.insufficientAmount, st, [])
    else if sLower auth.toAddr ≠ sLower payee then (.invalidRecipient, st, [])
    else if env.sigParseOk = false then (.serverError, st, [])
    else if env.permitOk = false then (.authorizationFailed, st, [.permit])
    else if env.transferOk = false then
      (.authorizationFailed, st, [.permit, .transferFrom])
    else if env.mintOk = false then (.serverError, st, [.permit, .transferFrom])
    else (.success auth.fromAddr, p.signature :: st,
          [.permit, .transferFrom, .mintPog])

/-
Concrete example values used by witnesses and counterexamples.
-/

/-- Example payee address (the configured PAYMENT_ADDRESS). -/
def payeeAddr : String := "0xaaaaaaaaaaaaaaaaaaaaaaaaaaaaaaaaaaaaaaaa"

/-- Example payer address (the source of the USDC transfer). -/
def payerAddr : String := "0xbbbbbbbbbbbbbbbbbbbbbbbbbbbbbbbbbbbbbbbb"

/-- The example payer address in uppercase hex, as a caller might assert
it. -/
def payerAddrUpper : String := "0xBBBBBBBBBBBBBBBBBBBBBBBBBBBBBBBBBBBBBBBB"

/-- A 32-byte indexed topic holding an address: 24 zero nibbles of padding
followed by the 40 address characters. -/
def mkTopic (a : String) : String := "0x000000000000000000000000" ++ sDrop a 2

def cfgEx : Config := ⟨payeeAddr⟩

/-- Example payment transaction hash: 0x followed by 64 hex characters. -/
def txA : String := String.mk ('0' :: 'x' :: List.replicate 64 'a')

/-- The example hash with an embedded-data suffix appended. -/
def txALong : String := txA ++ "deadbeef"

/-- A qualifying USDC transfer log: emitted by the USDC contract, Transfer
topic, from payerAddr to payeeAddr, amount exactly the required minimum. -/
def goodLog : Log :=
  ⟨USDC_CONTRACT_ADDRESS, [transferEventTopic, mkTopic payerAddr, mkTopic payeeAddr],
   REQUIRED_USDC_AMOUNT⟩

/-- The same transfer one unit below the required minimum. -/
def lowLog : Log :=
  ⟨USDC_CONTRACT_ADDRESS, [transferEventTopic, mkTopic payerAddr, mkTopic payeeAddr],
   REQUIRED_USDC_AMOUNT - 1⟩

def goodReceipt : Receipt := ⟨1, [goodLog]⟩

/-- Example chain: txA confirmed with the qualifying transfer. -/
def chainEx : Chain := ⟨[(txA, goodReceipt)], [txA]⟩

/-- An empty chain that knows no transaction. -/
def chainEmpty : Chain := ⟨[], []⟩

/-- Example ledger on which every POG transfer succeeds. -/
def ledgerEx : String → Option String := fun _ => some "0xminttx"

/-- The settlement record the example mint commits. -/
def recEx : SettlementRecord := ⟨payerAddr, "0xminttx", "t0", "10000 POG"⟩

/-- Two concurrent requests bearing the same transaction hash. -/
def c1Init : ConcState := ⟨[], 0, [.started txA none, .started txA none]⟩

/-- Example signature string for authorization payloads. -/
def sigEx : String := "0xs1gnatureexample"

/-- Example authorization, nonce 1. -/
def authN1 : Auth := ⟨payerAddr, payeeAddr, "1000000", "9999999999", "0x01"⟩

/-- The same authorization with a different nonce. -/
def authN2 : Auth := ⟨payerAddr, payeeAddr, "1000000", "9999999999", "0x02"⟩

def payloadN1 : PaymentPayload := ⟨some authN1, sigEx⟩

def payloadN2 : PaymentPayload := ⟨some authN2, sigEx⟩

/-- An authorization one unit short of the required amount. -/
def authLow : Auth := ⟨payerAddr, payeeAddr, "999999", "9999999999", "0x01"⟩

/-- A ledger on which every POG transfer fails. -/
def ledgerFail : String → Option String := fun _ => none

/-- A relay environment in which every on-chain step succeeds. -/
def relayEnvOk : RelayEnv := ⟨true, true, true, true⟩

/-
Shared lemmas about the embedded definitions.
-/

theorem stripHexMarker_cons (t : List Char) : stripHexMarker ('0' :: 'x' :: t) = t := rfl

/-- Hash cleaning always amounts to prefixing 0x to the first 64 characters
of the stripped value, whether or not truncation fires. -/
theorem normChars_take (s : List Char) :
    normChars s = '0' :: 'x' :: (stripHexMarker s).take 64 := by
  unfold normChars
  by_cases h : 64 < (stripHexMarker s).length
  · rw [if_pos h]
  · rw [if_neg h, List.take_of_length_le (Nat.le_of_not_lt h)]

/-- On a verified result the payer is the source address of the first
qualifying log of the receipt, and any truthy caller-asserted payer agrees
with it up to case. -/
theorem verify_ok_payer_src : ∀ (chain : Chain) (cfg : Config) (h : String)
    (pq : Option String) (payer : String) (amt : Nat),
    verifyUSDCPayment chain cfg h pq = .ok payer amt →
    (∃ r l, chain.receipts.lookup h = some r ∧
      r.logs.find? (qualifiesLog cfg) = some l ∧ payer = logSrc l ∧ amt = l.data) ∧
    (∀ p, pq = some p → p ≠ "" → sLower p = sLower payer) := by
  intro chain cfg h pq payer amt hv
  unfold verifyUSDCPayment at hv
  cases hre : chain.receipts.lookup h with
  | none => rw [hre] at hv; cases hv
  | some r =>
    rw [hre] at hv
    dsimp only at hv
    by_cases hs : r.status ≠ 1
    · rw [if_pos hs] at hv; cases hv
    · rw [if_neg hs] at hv
      by_cases htx : chain.txs.contains h = false
      · rw [if_pos htx] at hv; cases hv
      · rw [if_neg htx] at hv
        cases hfl : r.logs.find? (qualifiesLog cfg) with
        | none => rw [hfl] at hv; cases hv
        | some l =>
          rw [hfl] at hv
          dsimp only at hv
          by_cases hpc : jsTruthy pq = true ∧ sLower (pq.getD "") ≠ sLower (logSrc l)
          · rw [if_pos hpc] at hv; cases hv
          · rw [if_neg hpc] at hv
            injection hv with h1 h2
            subst h1; subst h2
            refine ⟨⟨r, l, rfl, hfl, rfl, rfl⟩, ?_⟩
            intro p hp hpe
            rw [hp] at hpc
            push_neg at hpc
            have htr : jsTruthy (some p) = true := by simp [jsTruthy, hpe]
            simpa using hpc htr

/-- A falsy payer query is equivalent to no payer query at all. -/
theorem verify_payer_irrelevant : ∀ (chain : Chain) (cfg : Config) (h : String)
    (pq : Option String), jsTruthy pq = false →
    verifyUSDCPayment chain cfg h pq = verifyUSDCPayment chain cfg h none := by
  intro chain cfg h pq ht
  unfold verifyUSDCPayment
  cases chain.receipts.lookup h with
  | none => rfl
  | some r =>
    dsimp only
    by_cases hs : r.status ≠ 1
    · rw [if_pos hs, if_pos hs]
    · rw [if_neg hs, if_neg hs]
      by_cases htx : chain.txs.contains h = false
      · rw [if_pos htx, if_pos htx]
      · rw [if_neg htx, if_neg htx]
        cases r.logs.find? (qualifiesLog cfg) with
        | none => rfl
        | some l =>
          dsimp only
          rw [if_neg (by simp [ht]), if_neg (by simp [jsTruthy])]

/-- Without a payer query the payer-mismatch rejection cannot arise. -/
theorem verify_none_no_mismatch : ∀ (chain : Chain) (cfg : Config) (h : String),
    verifyUSDCPayment chain cfg h none ≠ .err payerMismatchMsg := by
  intro chain cfg h
  unfold verifyUSDCPayment
  cases chain.receipts.lookup h with
  | none => dsimp only; decide
  | some r =>
    dsimp only
    by_cases hs : r.status ≠ 1
    · rw [if_pos hs]; decide
    · rw [if_neg hs]
      by_cases htx : chain.txs.contains h = false
      · rw [if_pos htx]; decide
      · rw [if_neg htx]
        cases r.logs.find? (qualifiesLog cfg) with
        | none => dsimp only; decide
        | some l =>
          dsimp only
          rw [if_neg (by simp [jsTruthy])]
          simp

/-- With a truthy X-Payment-Tx header value the handler always takes the
transaction-hash path on the normalized value, regardless of the other
header. -/
theorem handleMint_some_raw : ∀ (cfg : Config) (chain : Chain)
    (ledger : String → Option String) (now : String) st raw hPay pq, raw ≠ "" →
    handleMint cfg chain ledger now st (some raw) hPay pq =
      mintWithHash cfg chain ledger now st (normalizeTxHash raw) pq := by
  intro cfg chain ledger now st raw hPay pq hraw
  unfold handleMint
  have ht : jsTruthy (some raw) = true := by simp [jsTruthy, hraw]
  rw [if_neg (by simp [ht]), if_pos ht]
  unfold normalizeIfTruthy
  rw [if_pos (by simpa using hraw)]
  rfl

/-
Claim theorems.
-/

/-- Claim C1 (exhibiting the code bug): the claim demands that N parallel
handle calls bearing the same proof identity produce exactly one commit and
never more than one ledger transfer.  In src/server.js the
processedPayments.has check and the processedPayments.set commit are
separated by awaited verification and mint calls, so under the interleaved
schedule 0,1,0,1 two requests carrying the same transaction hash both pass
the duplicate check before either commits: both requests finish with a
success response and two POG ledger transfers are performed, against the
sequential schedule 0,0,1 where the duplicate is rejected and only one
transfer happens. -/
theorem c1_concurrent_double_mint :
    (runSched cfgEx chainEx ledgerEx "t0" c1Init [0, 1, 0, 1]).mintCount = 2 ∧
    (runSched cfgEx chainEx ledgerEx "t0" c1Init [0, 1, 0, 1]).reqs =
      [.finished (.success txA "0xminttx" payerAddr),
       .finished (.success txA "0xminttx" payerAddr)] ∧
    (runSched cfgEx chainEx ledgerEx "t0" c1Init [0, 0, 1]).mintCount = 1 ∧
    (runSched cfgEx chainEx ledgerEx "t0" c1Init [0, 0, 1]).reqs =
      [.finished (.success txA "0xminttx" payerAddr),
       .finished (.alreadyProcessed txA)] := by decide

/-- Claim C2 counterexample: after a first call settles the example proof,
the second sequential call with the same proof returns the 400
already-processed rejection, not the stored settlement record as an
idempotent success. -/
theorem c2_duplicate_returns_error :
    handleMint cfgEx chainEx ledgerEx "t0" [] (some txA) none none =
      (.success txA "0xminttx" payerAddr, [(txA, recEx)]) ∧
    handleMint cfgEx chainEx ledgerEx "t1" [(txA, recEx)] (some txA) none none =
      (.alreadyProcessed txA, [(txA, recEx)]) ∧
    MintResponse.isSuccess (.alreadyProcessed txA) = false := by decide

/-- Claim C2 as amended: if a first call to the handler settles a proof,
a second sequential call with the same proof returns the 400
already-processed rejection naming the same transaction hash, with the
store unchanged, rather than the stored record or a settlement. -/
theorem c2_second_call_already_processed : ∀ (cfg : Config) (chain : Chain)
    (ledger : String → Option String) (now now2 : String) st raw pq hsh mintTx payer st2,
    handleMint cfg chain ledger now st (some raw) none pq = (.success hsh mintTx payer, st2) →
    handleMint cfg chain ledger now2 st2 (some raw) none pq = (.alreadyProcessed hsh, st2) := by
  intro cfg chain ledger now now2 st raw pq hsh mintTx payer st2 h1
  by_cases hraw : raw = ""
  · subst hraw
    unfold handleMint at h1
    rw [if_pos (by constructor <;> decide)] at h1
    simp at h1
  · rw [handleMint_some_raw cfg chain ledger now st raw none pq hraw] at h1
    rw [handleMint_some_raw cfg chain ledger now2 st2 raw none pq hraw]
    unfold mintWithHash at h1 ⊢
    cases hlk : st.lookup (normalizeTxHash raw) with
    | some r0 => rw [hlk] at h1; simp at h1
    | none =>
      rw [hlk] at h1; dsimp only at h1
      cases hve : verifyUSDCPayment chain cfg (normalizeTxHash raw) pq with
      | err m => rw [hve] at h1; simp at h1
      | ok payer0 amt0 =>
        rw [hve] at h1; dsimp only at h1
        cases hml : ledger payer0 with
        | none => rw [hml] at h1; simp at h1
        | some mtx0 =>
          rw [hml] at h1
          injection h1 with hfst hsnd
          injection hfst with e1 e2 e3
          subst e1
          subst hsnd
          simp [List.lookup]

theorem c2_second_call_already_processed_witness :
    handleMint cfgEx chainEx ledgerEx "t1" [(txA, recEx)] (some txA) none none =
      (.alreadyProcessed txA, [(txA, recEx)]) :=
  c2_second_call_already_processed cfgEx chainEx ledgerEx "t0" "t1" [] txA none txA
    "0xminttx" payerAddr [(txA, recEx)] (by decide)

/-- Claim C3: for every transaction-hash proof, a verified payer equals the
source address of the first qualifying transfer found in the receipt logs,
never an address asserted by the caller: any truthy caller-asserted payer
can only agree with that source address up to case (a mismatch is
rejected), and every settlement the handler issues has as recipient the
payer produced by verification for the settled hash. -/
theorem c3_payer_from_transfer_source : ∀ (chain : Chain) (cfg : Config) (h : String)
    (pq : Option String),
    (∀ payer amt, verifyUSDCPayment chain cfg h pq = .ok payer amt →
      (∃ r l, chain.receipts.lookup h = some r ∧
        r.logs.find? (qualifiesLog cfg) = some l ∧ payer = logSrc l ∧ amt = l.data) ∧
      (∀ p, pq = some p → p ≠ "" → sLower p = sLower payer)) ∧
    (∀ (ledger : String → Option String) (now : String) st hTx hPay ptx mtx rec st2,
      handleMint cfg chain ledger now st hTx hPay pq = (.success ptx mtx rec, st2) →
      ∃ amt, verifyUSDCPayment chain cfg ptx pq = .ok rec amt) := by
  intro chain cfg h pq
  constructor
  · intro payer amt hv
    exact verify_ok_payer_src chain cfg h pq payer amt hv
  · intro ledger now st hTx hPay ptx mtx rec st2 hm
    unfold handleMint at hm
    by_cases hg : jsTruthy hTx = false ∧ jsTruthy hPay = false
    · rw [if_pos hg] at hm; simp at hm
    · rw [if_neg hg] at hm
      unfold mintWithHash at hm
      cases hlk : st.lookup
          (normalizeIfTruthy (if jsTruthy hTx then hTx.getD "" else hPay.getD "")) with
      | some rec0 => rw [hlk] at hm; simp at hm
      | none =>
        rw [hlk] at hm
        dsimp only at hm
        cases hve : verifyUSDCPayment chain cfg
            (normalizeIfTruthy (if jsTruthy hTx then hTx.getD "" else hPay.getD "")) pq with
        | err m => rw [hve] at hm; simp at hm
        | ok payer amt =>
          rw [hve] at hm
          dsimp only at hm
          cases hml : ledger payer with
          | none => rw [hml] at hm; simp at hm
          | some mtx2 =>
            rw [hml] at hm
            injection hm with hfst hsnd
            injection hfst with e1 e2 e3
            subst e1; subst e3
            exact ⟨amt, hve⟩

theorem c3_payer_from_transfer_source_witness : sLower payerAddrUpper = sLower payerAddr :=
  ((c3_payer_from_transfer_source chainEx cfgEx txA (some payerAddrUpper)).1
    payerAddr 1000000 (by decide)).2 payerAddrUpper rfl (by decide)

/-- Claim C4: verification of a transaction-hash proof fails with the
transaction-not-found message when the receipt is absent and with the
transaction-failed message when the receipt status is not 1; otherwise
(with transaction details available) it scans the logs in emission order,
failing with the no-qualifying-transfer message when no log qualifies, and
returning the first qualifying log's source and amount when one does (no
summing across logs); a log whose amount is exactly one unit below the
required minimum never qualifies. -/
theorem c4_txhash_verification_policy : ∀ (chain : Chain) (cfg : Config) (h : String)
    (pq : Option String),
    (chain.receipts.lookup h = none → verifyUSDCPayment chain cfg h pq = .err txNotFoundMsg) ∧
    (∀ r, chain.receipts.lookup h = some r → r.status ≠ 1 →
      verifyUSDCPayment chain cfg h pq = .err txFailedMsg) ∧
    (∀ r, chain.receipts.lookup h = some r → r.status = 1 → chain.txs.contains h = true →
      r.logs.find? (qualifiesLog cfg) = none →
      verifyUSDCPayment chain cfg h pq = .err noTransferMsg) ∧
    (∀ r l, chain.receipts.lookup h = some r → r.status = 1 → chain.txs.contains h = true →
      r.logs.find? (qualifiesLog cfg) = some l →
      verifyUSDCPayment chain cfg h none = .ok (logSrc l) l.data) ∧
    (∀ l : Log, l.data + 1 = REQUIRED_USDC_AMOUNT → qualifiesLog cfg l = false) := by
  intro chain cfg h pq
  refine ⟨?_, ?_, ?_, ?_, ?_⟩
  · intro hn; unfold verifyUSDCPayment; rw [hn]
  · intro r hr hs
    unfold verifyUSDCPayment; rw [hr]; dsimp only; rw [if_pos hs]
  · intro r hr hs htx hf
    unfold verifyUSDCPayment
    rw [hr]; dsimp only
    rw [if_neg (by simp [hs]), if_neg (by rw [htx]; simp), hf]
  · intro r l hr hs htx hf
    unfold verifyUSDCPayment
    rw [hr]; dsimp only
    rw [if_neg (by simp [hs]), if_neg (by rw [htx]; simp), hf]
    dsimp only
    rw [if_neg (by simp [jsTruthy])]
  · intro l hl
    have hlt : ¬ (REQUIRED_USDC_AMOUNT ≤ l.data) := by omega
    unfold qualifiesLog
    rw [decide_eq_false hlt, Bool.and_false]

theorem c4_txhash_verification_policy_witness :
    verifyUSDCPayment chainEmpty cfgEx txA none = .err txNotFoundMsg ∧
    verifyUSDCPayment chainEx cfgEx txA none = .ok (logSrc goodLog) goodLog.data ∧
    qualifiesLog cfgEx lowLog = false :=
  ⟨(c4_txhash_verification_policy chainEmpty cfgEx txA none).1 (by decide),
   (c4_txhash_verification_policy chainEx cfgEx txA none).2.2.2.1 goodReceipt goodLog
     (by decide) (by decide) (by decide) (by decide),
   (c4_txhash_verification_policy chainEx cfgEx txA none).2.2.2.2 lowLog (by decide)⟩

/-- Claim C5: in the authorization flow, when the value check
(parseInt(auth.value) < 1000000) or the recipient check (auth.to must equal
the configured payee up to case) fails, the request is rejected with no
relay step attempted and the store unchanged: both checks run before the
permit and transferFrom relay transactions. -/
theorem c5_checks_before_relay : ∀ (payee : String) (env : RelayEnv) (st : List String)
    (p : PaymentPayload) (auth : Auth),
    p.authorization = some auth →
    (authValueInsufficient auth = true ∨ sLower auth.toAddr ≠ sLower payee) →
    ∀ resp st2 effs, handleX402Mint payee env st p = (resp, st2, effs) →
    effs = [] ∧ resp.isOk = false ∧ st2 = st := by
  intro payee env st p auth hauth hbad resp st2 effs heq
  unfold handleX402Mint at heq
  rw [hauth] at heq
  dsimp only at heq
  by_cases hdup : st.contains p.signature = true
  · rw [if_pos hdup] at heq
    injection heq with h1 h23
    injection h23 with h2 h3
    subst h1; subst h2; subst h3
    exact ⟨rfl, rfl, rfl⟩
  · rw [if_neg hdup] at heq
    by_cases hins : authValueInsufficient auth = true
    · rw [if_pos hins] at heq
      injection heq with h1 h23
      injection h23 with h2 h3
      subst h1; subst h2; subst h3
      exact ⟨rfl, rfl, rfl⟩
    · have hto : sLower auth.toAddr ≠ sLower payee := by
        rcases hbad with hb | hb
        · exact absurd hb hins
        · exact hb
      rw [if_neg hins, if_pos hto] at heq
      injection heq with h1 h23
      injection h23 with h2 h3
      subst h1; subst h2; subst h3
      exact ⟨rfl, rfl, rfl⟩

theorem c5_checks_before_relay_witness :
    ([] : List RelayEffect) = [] ∧ AuthResponse.insufficientAmount.isOk = false ∧
    ([] : List String) = [] :=
  c5_checks_before_relay payeeAddr relayEnvOk [] ⟨some authLow, sigEx⟩ authLow rfl
    (Or.inl (by decide)) .insufficientAmount [] [] (by decide)

/-- Claim C6 counterexample: two structurally different authorization
payloads that differ only in the nonce of the signed authorization map to
the same idempotency identity, because the identity is the raw signature
string rather than a digest of the pair (signature, nonce). -/
theorem c6_nonce_collision :
    payloadN1 ≠ payloadN2 ∧
    paymentIdOfPayload payloadN1 = paymentIdOfPayload payloadN2 := by decide

/-- Claim C6 as amended: the idempotency identity is the normalized
transaction hash for a transaction-hash proof and the raw signature string
for an authorization payload; any two payloads sharing a signature share an
identity (so the same signed authorization replayed under a different
envelope still collides, but so do payloads differing only outside the
signature), and a transaction hash whose normalization is already recorded
is rejected as already processed. -/
theorem c6_identity_signature_or_hash : ∀ (p q : PaymentPayload) (cfg : Config)
    (chain : Chain) (ledger : String → Option String) (now : String) st rec raw pq,
    (p.signature = q.signature → paymentIdOfPayload p = paymentIdOfPayload q) ∧
    (raw ≠ "" → st.lookup (normalizeTxHash raw) = some rec →
      (handleMint cfg chain ledger now st (some raw) none pq).1 =
        .alreadyProcessed (normalizeTxHash raw)) := by
  intro p q cfg chain ledger now st rec raw pq
  constructor
  · intro h; exact h
  · intro hraw hlk
    rw [handleMint_some_raw cfg chain ledger now st raw none pq hraw]
    unfold mintWithHash
    rw [hlk]

theorem c6_identity_signature_or_hash_witness :
    paymentIdOfPayload payloadN1 = paymentIdOfPayload payloadN2 ∧
    (handleMint cfgEx chainEx ledgerEx "t1" [(txA, recEx)] (some txALong) none none).1 =
      .alreadyProcessed (normalizeTxHash txALong) :=
  ⟨(c6_identity_signature_or_hash payloadN1 payloadN2 cfgEx chainEx ledgerEx "t1"
      [(txA, recEx)] recEx txALong none).1 rfl,
   (c6_identity_signature_or_hash payloadN1 payloadN2 cfgEx chainEx ledgerEx "t1"
      [(txA, recEx)] recEx txALong none).2 (by decide) (by decide)⟩

/-- Claim C7 counterexample: values that are neither base64 JSON
authorizations, nor typed-data documents, nor 0x plus 64 hex characters are
not rejected as malformed proofs: the handler normalizes them and proceeds
to on-chain verification, returning the transaction-not-found verification
failure instead of a parse rejection. -/
theorem c7_malformed_reaches_verification :
    handleMint cfgEx chainEmpty ledgerEx "t0" [] (some "not-a-hex-hash!!") none none =
      (.verificationFailed txNotFoundMsg, []) ∧
    handleMint cfgEx chainEmpty ledgerEx "t0" [] (some "0x1234") none none =
      (.verificationFailed txNotFoundMsg, []) := by decide

/-- Claim C7 as amended: no parse-stage format validation exists: every
truthy proof value, malformed ones included, is normalized and treated as a
transaction hash, and when the chain holds no receipt for the normalized
value (and it is not already recorded) the handler returns the
transaction-not-found verification failure rather than any malformed-proof
rejection. -/
theorem c7_no_parse_rejection : ∀ (cfg : Config) (chain : Chain)
    (ledger : String → Option String) (now : String) st raw pq, raw ≠ "" →
    st.lookup (normalizeTxHash raw) = none →
    chain.receipts.lookup (normalizeTxHash raw) = none →
    handleMint cfg chain ledger now st (some raw) none pq =
      (.verificationFailed txNotFoundMsg, st) := by
  intro cfg chain ledger now st raw pq hraw hlk hre
  rw [handleMint_some_raw cfg chain ledger now st raw none pq hraw]
  unfold mintWithHash
  rw [hlk]
  dsimp only
  have hv : verifyUSDCPayment chain cfg (normalizeTxHash raw) pq = .err txNotFoundMsg := by
    unfold verifyUSDCPayment
    rw [hre]
  rw [hv]

theorem c7_no_parse_rejection_witness :
    handleMint cfgEx chainEmpty ledgerEx "t0" [] (some "zz-not-a-proof") none none =
      (.verificationFailed txNotFoundMsg, []) :=
  c7_no_parse_rejection cfgEx chainEmpty ledgerEx "t0" [] "zz-not-a-proof" none
    (by decide) (by decide) (by decide)

/-- Claim C8: every handler outcome other than a settlement leaves the
processedPayments store unchanged, so the identity stays retryable; in
particular when verification succeeds but the mint transaction fails, the
handler returns the 500 mint-failure rejection with the store unchanged for
that identity. -/
theorem c8_failure_leaves_store : ∀ (cfg : Config) (chain : Chain)
    (ledger : String → Option String) (now : String) st hTx hPay pq,
    ((handleMint cfg chain ledger now st hTx hPay pq).1.isSuccess = false →
      (handleMint cfg chain ledger now st hTx hPay pq).2 = st) ∧
    (∀ raw payer amt, hTx = some raw → raw ≠ "" →
      st.lookup (normalizeTxHash raw) = none →
      verifyUSDCPayment chain cfg (normalizeTxHash raw) pq = .ok payer amt →
      ledger payer = none →
      handleMint cfg chain ledger now st hTx hPay pq = (.serverError mintFailMsg, st)) := by
  intro cfg chain ledger now st hTx hPay pq
  constructor
  · intro hns
    unfold handleMint at hns ⊢
    by_cases hg : jsTruthy hTx = false ∧ jsTruthy hPay = false
    · rw [if_pos hg]
    · rw [if_neg hg] at hns ⊢
      unfold mintWithHash at hns ⊢
      cases hlk : st.lookup
          (normalizeIfTruthy (if jsTruthy hTx then hTx.getD "" else hPay.getD "")) with
      | some r0 => rfl
      | none =>
        rw [hlk] at hns
        dsimp only at hns ⊢
        cases hve : verifyUSDCPayment chain cfg
            (normalizeIfTruthy (if jsTruthy hTx then hTx.getD "" else hPay.getD "")) pq with
        | err m => rfl
        | ok payer amt =>
          rw [hve] at hns
          dsimp only at hns ⊢
          cases hml : ledger payer with
          | none => rfl
          | some mtx =>
            rw [hml] at hns
            simp [MintResponse.isSuccess] at hns
  · intro raw payer amt hraw hne hlk hve hml
    subst hraw
    rw [handleMint_some_raw cfg chain ledger now st raw hPay pq hne]
    unfold mintWithHash
    rw [hlk]
    dsimp only
    rw [hve]
    dsimp only
    rw [hml]

theorem c8_failure_leaves_store_witness :
    handleMint cfgEx chainEx ledgerFail "t0" [] (some txA) none none =
      (.serverError mintFailMsg, []) :=
  (c8_failure_leaves_store cfgEx chainEx ledgerFail "t0" [] (some txA) none none).2
    txA payerAddr 1000000 rfl (by decide) (by decide) (by decide) rfl

/-- Claim C9: with the payer query parameter absent or empty, verification
behaves exactly as with no assertion at all and can never fail with the
payer-address-mismatch error, so the payer of any verified result is the
on-chain transfer source. -/
theorem c9_no_assert_no_mismatch : ∀ (chain : Chain) (cfg : Config) (h : String)
    (pq : Option String),
    (pq = none ∨ pq = some "") →
    verifyUSDCPayment chain cfg h pq = verifyUSDCPayment chain cfg h none ∧
    verifyUSDCPayment chain cfg h pq ≠ .err payerMismatchMsg := by
  intro chain cfg h pq hf
  have ht : jsTruthy pq = false := by rcases hf with rfl | rfl <;> decide
  have he := verify_payer_irrelevant chain cfg h pq ht
  exact ⟨he, by rw [he]; exact verify_none_no_mismatch chain cfg h⟩

theorem c9_no_assert_no_mismatch_witness :
    verifyUSDCPayment chainEx cfgEx txA (some "") = verifyUSDCPayment chainEx cfgEx txA none ∧
    verifyUSDCPayment chainEx cfgEx txA (some "") ≠ .err payerMismatchMsg :=
  c9_no_assert_no_mismatch chainEx cfgEx txA (some "") (Or.inr rfl)

/-- Claim C10: the transaction-hash normalization is idempotent, and any
two raw header values that agree on the first 64 characters after the
optional 0x marker normalize to the same canonical hash, hence share one
idempotency identity. -/
theorem c10_normalize_idempotent : ∀ s a b : String,
    normalizeTxHash (normalizeTxHash s) = normalizeTxHash s ∧
    ((stripHexMarker a.data).take 64 = (stripHexMarker b.data).take 64 →
      normalizeTxHash a = normalizeTxHash b) := by
  intro s a b
  constructor
  · show String.mk (normChars (normChars s.data)) = String.mk (normChars s.data)
    rw [normChars_take (normChars s.data), normChars_take s.data,
        stripHexMarker_cons, List.take_take]
    simp
  · intro hab
    show String.mk (normChars a.data) = String.mk (normChars b.data)
    rw [normChars_take, normChars_take, hab]

theorem c10_normalize_idempotent_witness :
    normalizeTxHash txALong = normalizeTxHash txA ∧
    normalizeTxHash (normalizeTxHash txALong) = normalizeTxHash txALong :=
  ⟨(c10_normalize_idempotent txA txALong txA).2 (by decide),
   (c10_normalize_idempotent txALong txA txA).1⟩
